import Mathlib

/-!
# Deedmint front end (`src/App.js`): a shallow embedding

The `App` component of the real-estate dApp is embedded as pure functions over an explicit
state.  The React state cells of `App` are the record `AppState`; the browser around the
component (alert boxes, console, wallet listeners, outgoing calls) is the record `Sys`; everything
the component reads from outside (wallet, configuration table, contracts, HTTP, `ethers`) is the
record `World`.  A JavaScript statement that may throw yields an `Outcome`, which keeps the state
reached so far together with either the value or the exception.
-/

namespace Deedmint

/-! ## Values -/

/-- A JavaScript exception value. -/
structure JsError where
  message : String
deriving DecidableEq, Repr

/-- A parsed JSON document (token metadata), kept as its canonical text; `App` only stores and
hands on such documents. -/
structure Json where
  text : String
deriving DecidableEq, Repr

/-- The two interface descriptions imported by `App.js`. -/
inductive Abi where
  | RealEstate
  | Escrow
deriving DecidableEq, Repr

/-- The object built by `new ethers.providers.Web3Provider(window.ethereum)`. -/
structure Provider where
  handle : Nat
deriving DecidableEq, Repr

/-- The object built by `new ethers.Contract(address, abi, provider)`. -/
structure Contract where
  address : String
  abi : Abi
  provider : Provider
deriving DecidableEq, Repr

/-- The wallet notifications `load` subscribes to. -/
inductive WalletEvent where
  | accountsChanged
  | chainChanged
deriving DecidableEq, Repr

/-- The two listener closures created by `load`. -/
inductive Handler where
  | handleAccountsChanged
  | handleChainChanged
deriving DecidableEq, Repr

/-- The three `window.alert` messages of `load`. -/
inductive Alert where
  | noMetaMask
  | unsupportedNetwork (chainId : Nat)
  | initFailed
deriving DecidableEq, Repr

/-- The console lines written by `load`. -/
inductive LogEntry where
  | warnFetchFailed (i : Nat) (status : Nat)
  | warnTokenError (i : Nat) (innerErr : JsError)
  | errorLoad (err : JsError)
deriving DecidableEq, Repr

/-- The closure returned at the end of `load`; it remembers the two handlers it removes. -/
structure Cleanup where
  accounts : Handler
  chain : Handler
deriving DecidableEq, Repr

/-! ## State -/

/-- The `useState` cells of `App`, with their initial values. -/
structure AppState where
  provider : Option Provider := none
  escrow : Option Contract := none
  account : Option String := none
  homes : List Json := []
  home : Json := ⟨"\x7b\x7d"⟩
  toggle : Bool := false
deriving DecidableEq, Repr

/-- The component state together with what the page has done to its surroundings. -/
structure Sys where
  app : AppState := {}
  alerts : List Alert := []
  console : List LogEntry := []
  listeners : List (WalletEvent × Handler) := []
  built : List Contract := []
  lookups : List Nat := []
  fetches : List (Nat × String) := []
  reloads : Nat := 0
deriving DecidableEq, Repr

/-- The state before the mount effect has run. -/
def Sys.initial : Sys := {}

/-- Completion of a statement sequence: normal with a value, or abrupt with an exception; the
state reached is kept in both cases. -/
inductive Outcome (α : Type) where
  | done (s : Sys) (a : α)
  | threw (s : Sys) (e : JsError)
deriving Repr

/-- The state in which a statement sequence stopped. -/
def Outcome.state {α : Type} : Outcome α → Sys
  | .done s _ => s
  | .threw s _ => s

def Sys.setProvider (s : Sys) (p : Provider) : Sys :=
  { s with app := { s.app with provider := some p } }

def Sys.setEscrow (s : Sys) (c : Contract) : Sys :=
  { s with app := { s.app with escrow := some c } }

def Sys.setAccount (s : Sys) (a : Option String) : Sys :=
  { s with app := { s.app with account := a } }

def Sys.setHomes (s : Sys) (hs : List Json) : Sys :=
  { s with app := { s.app with homes := hs } }

/-- Effect of `window.alert(..)`. -/
def Sys.alert (s : Sys) (a : Alert) : Sys :=
  { s with alerts := s.alerts ++ [a] }

/-- Effect of `console.warn(..)` and `console.error(..)`. -/
def Sys.log (s : Sys) (l : LogEntry) : Sys :=
  { s with console := s.console ++ [l] }

/-! ## The world outside the component -/

/-- The injected `window.ethereum` object. -/
structure Wallet where
  /-- result of `new ethers.providers.Web3Provider(window.ethereum)` -/
  web3Provider : Except JsError Provider
  /-- result of `await provider_.getNetwork()`, reduced to its `chainId` -/
  getNetwork : Except JsError Nat
  /-- whether `window.ethereum.on` is a function -/
  hasOn : Bool
  /-- whether `window.ethereum.removeListener` is truthy -/
  hasRemoveListener : Bool

/-- What `await fetch(uri)` resolves to, as far as `load` looks at it. -/
structure Response where
  ok : Bool
  status : Nat
  /-- result of `await res.json()` -/
  json : Except JsError Json

/-- One record of `config.json`: the two deployed addresses. -/
structure NetConfig where
  realEstate : String
  escrow : String
deriving DecidableEq, Repr

/-- Everything `App` reads from outside.  `config` is the table of `config.json` (`none` where
`config[chainId]` is falsy); `fetch i uri` is the answer to the request issued for token `i`. -/
structure World where
  ethereum : Option Wallet
  config : Nat → Option NetConfig
  /-- holds `some e` when `new ethers.Contract(address, abi, provider_)` throws `e` -/
  contractFails : String → Abi → Option JsError
  /-- result of `(await realEstate.totalSupply()).toNumber()` -/
  totalSupply : Contract → Except JsError Nat
  /-- result of `await realEstate.tokenURI(i)` -/
  tokenURI : Contract → Nat → Except JsError String
  fetch : Nat → String → Except JsError Response
  /-- `ethers.utils.getAddress` -/
  getAddress : String → Except JsError String

/-! ## `toHttpFromIpfs` -/

/-- JavaScript `s.startsWith(pre)`. -/
def jsStartsWith (s pre : String) : Bool :=
  pre.data.isPrefixOf s.data

/-- JavaScript `s.slice(n)` for a non-negative `n`. -/
def jsSlice (s : String) (n : Nat) : String :=
  ⟨s.data.drop n⟩

/-- The helper of `App.js` lines 28-34. -/
def toHttpFromIpfs (uri : String) : String :=
  if uri = "" then uri
  else if jsStartsWith uri "ipfs://" then
    "https://ipfs.io/ipfs/" ++ jsSlice uri "ipfs://".length
  else uri

/-! ## The modal toggle and the card grid -/

/-- The function `togglePop` of `App.js` lines 121-124, run against the state of the render that
created it. -/
def togglePop (home_ : Json) (a : AppState) : AppState :=
  let a := { a with home := home_ }
  if a.toggle then { a with toggle := false } else { a with toggle := true }

/-- The properties handed to the `Home` component. -/
structure HomeProps where
  home : Json
  provider : Option Provider
  account : Option String
  escrow : Option Contract
deriving DecidableEq, Repr

/-- The conditional render `toggle && <Home .. />` of lines 155-163: `none` when nothing is
rendered. -/
def renderModal (a : AppState) : Option HomeProps :=
  if a.toggle then some ⟨a.home, a.provider, a.account, a.escrow⟩ else none

/-- A click on the card at position `index` of the grid (`onClick={() => togglePop(h)}`). -/
def clickCard (index : Nat) (a : AppState) : AppState :=
  match a.homes.get? index with
  | some h => togglePop h a
  | none => a

/-! ## The wallet listeners -/

/-- The listener `handleAccountsChanged` of lines 93-95; `accounts = none` is a `null` or
`undefined` argument. -/
def handleAccountsChanged (w : World) (accounts : Option (List String)) (s : Sys) :
    Outcome Unit :=
  match accounts with
  | none => .done (s.setAccount none) ()
  | some l =>
    match l.head? with
    | none => .done (s.setAccount none) ()
    | some a0 =>
      if a0 = "" then .done (s.setAccount none) ()
      else
        match w.getAddress a0 with
        | .ok checksummed => .done (s.setAccount (some checksummed)) ()
        | .error e => .threw s e

/-- The listener `handleChainChanged` of lines 97-100. -/
def handleChainChanged (s : Sys) : Sys :=
  { s with reloads := s.reloads + 1 }

/-! ## `load`: the mount-time initialisation -/

/-- The call `new ethers.Contract(address, abi, provider_)`. -/
def newContract (w : World) (address : String) (abi : Abi) (provider_ : Provider) (s : Sys) :
    Outcome Contract :=
  match w.contractFails address abi with
  | some e => .threw s e
  | none =>
    let c : Contract := ⟨address, abi, provider_⟩
    .done { s with built := s.built ++ [c] } c

/-- The statements inside the `try` of one loop iteration (lines 76-85).  `homes_` is the array
being filled; the value returned is that array after the iteration. -/
def iterationTry (w : World) (realEstate : Contract) (i : Nat) (homes_ : List Json) (s : Sys) :
    Outcome (List Json) :=
  let s := { s with lookups := s.lookups ++ [i] }
  match w.tokenURI realEstate i with
  | .error e => .threw s e
  | .ok uri =>
    let uri := toHttpFromIpfs uri
    let s := { s with fetches := s.fetches ++ [(i, uri)] }
    match w.fetch i uri with
    | .error e => .threw s e
    | .ok res =>
      if !res.ok then
        .done (s.log (.warnFetchFailed i res.status)) homes_
      else
        match res.json with
        | .error e => .threw s e
        | .ok metadata => .done s (homes_ ++ [metadata])

/-- One loop iteration: the `try` of lines 75-85 with its `catch (innerErr)` of lines 86-88. -/
def iteration (w : World) (realEstate : Contract) (i : Nat) (homes_ : List Json) (s : Sys) :
    Outcome (List Json) :=
  match iterationTry w realEstate i homes_ s with
  | .done s homes_ => .done s homes_
  | .threw s innerErr => .done (s.log (.warnTokenError i innerErr)) homes_

/-- The loop `for (let i = 1; i <= totalSupply; i++)` of lines 74-89, entered with counter `i`.
The first argument bounds the number of tests of the loop condition; `none` means the bound was
reached before the condition became false. -/
def metadataLoop (w : World) (realEstate : Contract) (totalSupply : Nat) :
    Nat → Nat → List Json → Sys → Option (Outcome (List Json))
  | 0, _, _, _ => none
  | fuel + 1, i, homes_, s =>
    if i ≤ totalSupply then
      match iteration w realEstate i homes_ s with
      | .done s homes_ => metadataLoop w realEstate totalSupply fuel (i + 1) homes_ s
      | .threw s e => some (.threw s e)
    else some (.done s homes_)

/-- The call `window.ethereum.on(event, handler)`. -/
def walletOn (eth : Wallet) (event : WalletEvent) (handler : Handler) (s : Sys) : Outcome Unit :=
  if eth.hasOn then .done { s with listeners := s.listeners ++ [(event, handler)] } ()
  else .threw s ⟨"TypeError: window.ethereum.on is not a function"⟩

/-- The body of the `try` block of `load` (lines 39-111).  The value is what `load` returns:
`none` for `undefined`, `some c` for the cleanup closure. -/
def loadTry (w : World) (s : Sys) : Option (Outcome (Option Cleanup)) :=
  match w.ethereum with
  | none => some (.done (s.alert .noMetaMask) none)
  | some eth =>
    match eth.web3Provider with
    | .error e => some (.threw s e)
    | .ok provider_ =>
      let s := s.setProvider provider_
      match eth.getNetwork with
      | .error e => some (.threw s e)
      | .ok chainId =>
        match w.config chainId with
        | none => some (.done (s.alert (.unsupportedNetwork chainId)) none)
        | some cfg =>
          match newContract w cfg.realEstate .RealEstate provider_ s with
          | .threw s e => some (.threw s e)
          | .done s realEstate =>
            match newContract w cfg.escrow .Escrow provider_ s with
            | .threw s e => some (.threw s e)
            | .done s escrow_ =>
              let s := s.setEscrow escrow_
              match w.totalSupply realEstate with
              | .error e => some (.threw s e)
              | .ok totalSupply =>
                match metadataLoop w realEstate totalSupply (totalSupply + 1) 1 [] s with
                | none => none
                | some (.threw s e) => some (.threw s e)
                | some (.done s homes_) =>
                  let s := s.setHomes homes_
                  match walletOn eth .accountsChanged .handleAccountsChanged s with
                  | .threw s e => some (.threw s e)
                  | .done s _ =>
                    match walletOn eth .chainChanged .handleChainChanged s with
                    | .threw s e => some (.threw s e)
                    | .done s _ =>
                      some (.done s (some ⟨.handleAccountsChanged, .handleChainChanged⟩))

/-- The async function `load` of lines 37-116: the `try` block with the outer `catch (err)`. -/
def load (w : World) (s : Sys) : Option (Outcome (Option Cleanup)) :=
  match loadTry w s with
  | none => none
  | some (.done s r) => some (.done s r)
  | some (.threw s err) => some (.done ((s.log (.errorLoad err)).alert .initFailed) none)

/-- The call `window.ethereum.removeListener(event, handler)`. -/
def removeListener (event : WalletEvent) (handler : Handler) (s : Sys) : Sys :=
  { s with listeners := s.listeners.erase (event, handler) }

/-- Running the closure returned by `load` (lines 106-111). -/
def runCleanup (w : World) (c : Cleanup) (s : Sys) : Sys :=
  match w.ethereum with
  | none => s
  | some eth =>
    if eth.hasRemoveListener then
      removeListener .chainChanged c.chain (removeListener .accountsChanged c.accounts s)
    else s

/-- The callback given to `useEffect` (lines 36-119): it calls `load()` and returns nothing, so
the value handed to React as cleanup is `undefined` (`none`) whatever `load` resolves to. -/
def mountEffect (w : World) (s : Sys) : Option (Sys × Option Cleanup) :=
  match load w s with
  | none => none
  | some r => some (r.state, none)

/-- Teardown of the component: React runs the cleanup the effect callback returned, if any. -/
def unmount (w : World) (held : Option Cleanup) (s : Sys) : Sys :=
  match held with
  | some c => runCleanup w c s
  | none => s

/-! ## Specification-side notions -/

/-- The document of token `i` when its lookup, its fetch (with `res.ok`) and its parse all
succeed, `none` when one of them fails. -/
def loadedDoc (w : World) (realEstate : Contract) (i : Nat) : Option Json :=
  match w.tokenURI realEstate i with
  | .error _ => none
  | .ok uri =>
    match w.fetch i (toHttpFromIpfs uri) with
    | .error _ => none
    | .ok res =>
      if res.ok then
        match res.json with
        | .error _ => none
        | .ok d => some d
      else none

/-- The fetch issued for token `i`: none when the lookup throws. -/
def fetchOf (w : World) (realEstate : Contract) (i : Nat) : Option (Nat × String) :=
  match w.tokenURI realEstate i with
  | .error _ => none
  | .ok uri => some (i, toHttpFromIpfs uri)

/-- The ids `1..n` in ascending order. -/
def tokenIds (n : Nat) : List Nat := List.range' 1 n

/-- The number of ids in `1..n` for which lookup, fetch or parse fails. -/
def failedCount (w : World) (realEstate : Contract) (n : Nat) : Nat :=
  ((tokenIds n).filter fun i => (loadedDoc w realEstate i).isNone).length

/-- The console line written for token `i`, if any: a failed response is reported with its
status, an exception with its value. -/
def warningOf (w : World) (realEstate : Contract) (i : Nat) : Option LogEntry :=
  match w.tokenURI realEstate i with
  | .error e => some (.warnTokenError i e)
  | .ok uri =>
    match w.fetch i (toHttpFromIpfs uri) with
    | .error e => some (.warnTokenError i e)
    | .ok res =>
      if res.ok then
        match res.json with
        | .error e => some (.warnTokenError i e)
        | .ok _ => none
      else some (.warnFetchFailed i res.status)

/-- The surroundings after the ids `ids` have been processed in that order: only the lookup
trace, the fetch trace and the console grow. -/
def Sys.afterIds (s : Sys) (w : World) (realEstate : Contract) (ids : List Nat) : Sys :=
  { s with
    lookups := s.lookups ++ ids
    fetches := s.fetches ++ ids.filterMap (fetchOf w realEstate)
    console := s.console ++ ids.filterMap (warningOf w realEstate) }

/-- The state once both contract bindings are built and `setEscrow` has run (line 67). -/
def Sys.afterSetup (s : Sys) (provider_ : Provider) (cfg : NetConfig) : Sys :=
  { s with
    app := { s.app with
      provider := some provider_
      escrow := some ⟨cfg.escrow, .Escrow, provider_⟩ }
    built := s.built ++
      [⟨cfg.realEstate, .RealEstate, provider_⟩, ⟨cfg.escrow, .Escrow, provider_⟩] }

/-- The state once the loop over `1..n` has run and `setHomes` has been called (line 90). -/
def Sys.afterHomes (s : Sys) (w : World) (realEstate : Contract) (n : Nat) : Sys :=
  (s.afterIds w realEstate (tokenIds n)).setHomes
    ((tokenIds n).filterMap (loadedDoc w realEstate))

/-- The state once both listeners are attached (lines 102-103). -/
def Sys.afterListeners (s : Sys) : Sys :=
  { s with
    listeners := s.listeners ++
      [(.accountsChanged, .handleAccountsChanged), (.chainChanged, .handleChainChanged)] }

/-! ## Concrete worlds used to exercise the model -/

/-- A wallet on chain 31337 with the usual listener interface. -/
def demoWallet : Wallet :=
  ⟨.ok ⟨1⟩, .ok 31337, true, true⟩

/-- A wallet on chain 1, which the demo configuration does not list. -/
def mainnetWallet : Wallet :=
  ⟨.ok ⟨1⟩, .ok 1, true, true⟩

/-- The configuration table with the single key 31337. -/
def demoConfig (chainId : Nat) : Option NetConfig :=
  if chainId = 31337 then some ⟨"0xRealEstate", "0xEscrow"⟩ else none

/-- Three tokens: 1 resolves to an `ipfs://` document, 2 answers HTTP 404, 3 resolves to an
`https://` document.  Its `getAddress` knows one address: given in lower case or in checksummed
form it answers the checksummed form, and it rejects every other string, the empty one
included. -/
def demoWorld : World where
  ethereum := some demoWallet
  config := demoConfig
  contractFails := fun _ _ => none
  totalSupply := fun _ => .ok 3
  tokenURI := fun _ i => .ok (if i = 3 then "https://example.com/3.json" else "ipfs://abc123")
  fetch := fun i _ =>
    if i = 2 then .ok ⟨false, 404, .error ⟨"no body"⟩⟩
    else .ok ⟨true, 200, .ok ⟨if i = 1 then "home-1" else "home-3"⟩⟩
  getAddress := fun a =>
    if a = "0x5fbdb2315678afecb367f032d93f642f64180aa3" ∨
        a = "0x5FbDB2315678afecb367f032d93F642f64180aa3" then
      .ok "0x5FbDB2315678afecb367f032d93F642f64180aa3"
    else .error ⟨"invalid address"⟩

/-- The demo world seen through a wallet on an unlisted chain. -/
def mainnetWorld : World :=
  { demoWorld with ethereum := some mainnetWallet }

/-- One token whose `tokenURI` call reverts. -/
def revertWorld : World :=
  { demoWorld with
    totalSupply := fun _ => .ok 1
    tokenURI := fun _ _ => .error ⟨"call revert exception"⟩ }

/-- The demo world with a wallet whose network query is rejected. -/
def offlineWorld : World :=
  { demoWorld with
    ethereum := some ⟨.ok ⟨1⟩, .error ⟨"network unreachable"⟩, true, true⟩ }

/-- The token-registry binding built in the demo worlds. -/
def demoRegistry : Contract := ⟨"0xRealEstate", .RealEstate, ⟨1⟩⟩

end Deedmint

namespace Deedmint

/-! ## The metadata loop -/

theorem afterIds_nil (s : Sys) (w : World) (re : Contract) : s.afterIds w re [] = s := by
  simp [Sys.afterIds]

theorem afterIds_append (s : Sys) (w : World) (re : Contract) (l₁ l₂ : List Nat) :
    (s.afterIds w re l₁).afterIds w re l₂ = s.afterIds w re (l₁ ++ l₂) := by
  simp [Sys.afterIds, List.filterMap_append, List.append_assoc]

/-- One iteration never throws; it grows the traces and appends the document of `i`, if any. -/
theorem iteration_eq (w : World) (re : Contract) (i : Nat) (homes_ : List Json) (s : Sys) :
    iteration w re i homes_ s
      = .done (s.afterIds w re [i]) (homes_ ++ [i].filterMap (loadedDoc w re)) := by
  unfold iteration iterationTry
  cases hu : w.tokenURI re i with
  | error e => simp [Sys.afterIds, fetchOf, warningOf, loadedDoc, hu, Sys.log]
  | ok uri =>
    cases hf : w.fetch i (toHttpFromIpfs uri) with
    | error e => simp [Sys.afterIds, fetchOf, warningOf, loadedDoc, hu, hf, Sys.log]
    | ok res =>
      cases hok : res.ok with
      | false => simp [Sys.afterIds, fetchOf, warningOf, loadedDoc, hu, hf, hok, Sys.log]
      | true =>
        cases hj : res.json with
        | error e => simp [Sys.afterIds, fetchOf, warningOf, loadedDoc, hu, hf, hok, hj, Sys.log]
        | ok d => simp [Sys.afterIds, fetchOf, warningOf, loadedDoc, hu, hf, hok, hj]

/-- With more condition tests allowed than ids left, the loop entered at `i` ends normally after
processing `i, i+1, .., totalSupply`. -/
theorem metadataLoop_eq (w : World) (re : Contract) (n : Nat) :
    ∀ (fuel i : Nat) (homes_ : List Json) (s : Sys), n + 1 - i < fuel →
      metadataLoop w re n fuel i homes_ s
        = some (.done (s.afterIds w re (List.range' i (n + 1 - i)))
            (homes_ ++ (List.range' i (n + 1 - i)).filterMap (loadedDoc w re))) := by
  intro fuel
  induction fuel with
  | zero => intro i homes_ s h; omega
  | succ fuel ih =>
    intro i homes_ s h
    unfold metadataLoop
    by_cases hi : i ≤ n
    · have hlen : n + 1 - i = (n + 1 - (i + 1)) + 1 := by omega
      rw [if_pos hi, iteration_eq]
      simp only
      rw [ih (i + 1) _ _ (by omega), afterIds_append, hlen, List.range'_succ]
      simp [List.filterMap_append, List.append_assoc]
      exact (List.filterMap_append _ _ _).symm
    · have hlen : n + 1 - i = 0 := by omega
      rw [if_neg hi, hlen]
      simp [afterIds_nil]

/-- The loop as `load` runs it. -/
theorem metadataLoop_run (w : World) (re : Contract) (n : Nat) (s : Sys) :
    metadataLoop w re n (n + 1) 1 [] s
      = some (.done (s.afterIds w re (tokenIds n)) ((tokenIds n).filterMap (loadedDoc w re))) := by
  have h := metadataLoop_eq w re n (n + 1) 1 [] s (by omega)
  simpa [tokenIds] using h

/-! ## `load` -/

/-- The `try` block of `load` once the wallet, the provider, the network id and both contract
bindings are in place: what remains is the supply read, the loop and the listeners. -/
theorem loadTry_supported (w : World) (s : Sys) (eth : Wallet) (provider_ : Provider)
    (chainId : Nat) (cfg : NetConfig)
    (hw : w.ethereum = some eth) (hp : eth.web3Provider = .ok provider_)
    (hn : eth.getNetwork = .ok chainId) (hc : w.config chainId = some cfg)
    (hre : w.contractFails cfg.realEstate .RealEstate = none)
    (hes : w.contractFails cfg.escrow .Escrow = none) :
    loadTry w s =
      match w.totalSupply ⟨cfg.realEstate, .RealEstate, provider_⟩ with
      | .error e => some (.threw (s.afterSetup provider_ cfg) e)
      | .ok n =>
        if eth.hasOn then
          some (.done
            (((s.afterSetup provider_ cfg).afterHomes w
                ⟨cfg.realEstate, .RealEstate, provider_⟩ n).afterListeners)
            (some ⟨.handleAccountsChanged, .handleChainChanged⟩))
        else
          some (.threw
            ((s.afterSetup provider_ cfg).afterHomes w ⟨cfg.realEstate, .RealEstate, provider_⟩ n)
            ⟨"TypeError: window.ethereum.on is not a function"⟩) := by
  unfold loadTry
  simp only [hw, hp, hn, hc, newContract, hre, hes]
  cases ht : w.totalSupply ⟨cfg.realEstate, .RealEstate, provider_⟩ with
  | error e => simp [Sys.afterSetup, Sys.setProvider, Sys.setEscrow]
  | ok n =>
    simp only [metadataLoop_run, walletOn]
    cases ho : eth.hasOn <;>
      simp [Sys.afterSetup, Sys.afterHomes, Sys.afterListeners, Sys.afterIds, Sys.setProvider,
        Sys.setEscrow, Sys.setHomes]

theorem loadTry_noWallet (w : World) (s : Sys) (hw : w.ethereum = none) :
    loadTry w s = some (.done (s.alert .noMetaMask) none) := by
  simp [loadTry, hw]

theorem loadTry_provider_throws (w : World) (s : Sys) (eth : Wallet) (e : JsError)
    (hw : w.ethereum = some eth) (hp : eth.web3Provider = .error e) :
    loadTry w s = some (.threw s e) := by
  simp [loadTry, hw, hp]

theorem loadTry_network_throws (w : World) (s : Sys) (eth : Wallet) (provider_ : Provider)
    (e : JsError) (hw : w.ethereum = some eth) (hp : eth.web3Provider = .ok provider_)
    (hn : eth.getNetwork = .error e) :
    loadTry w s = some (.threw (s.setProvider provider_) e) := by
  simp [loadTry, hw, hp, hn]

theorem loadTry_unsupported (w : World) (s : Sys) (eth : Wallet) (provider_ : Provider)
    (chainId : Nat) (hw : w.ethereum = some eth) (hp : eth.web3Provider = .ok provider_)
    (hn : eth.getNetwork = .ok chainId) (hc : w.config chainId = none) :
    loadTry w s
      = some (.done ((s.setProvider provider_).alert (.unsupportedNetwork chainId)) none) := by
  simp [loadTry, hw, hp, hn, hc]

theorem loadTry_registry_throws (w : World) (s : Sys) (eth : Wallet) (provider_ : Provider)
    (chainId : Nat) (cfg : NetConfig) (e : JsError)
    (hw : w.ethereum = some eth) (hp : eth.web3Provider = .ok provider_)
    (hn : eth.getNetwork = .ok chainId) (hc : w.config chainId = some cfg)
    (hre : w.contractFails cfg.realEstate .RealEstate = some e) :
    loadTry w s = some (.threw (s.setProvider provider_) e) := by
  simp [loadTry, hw, hp, hn, hc, newContract, hre]

theorem loadTry_escrow_throws (w : World) (s : Sys) (eth : Wallet) (provider_ : Provider)
    (chainId : Nat) (cfg : NetConfig) (e : JsError)
    (hw : w.ethereum = some eth) (hp : eth.web3Provider = .ok provider_)
    (hn : eth.getNetwork = .ok chainId) (hc : w.config chainId = some cfg)
    (hre : w.contractFails cfg.realEstate .RealEstate = none)
    (hes : w.contractFails cfg.escrow .Escrow = some e) :
    loadTry w s
      = some (.threw
          { s.setProvider provider_ with
            built := s.built ++ [⟨cfg.realEstate, .RealEstate, provider_⟩] } e) := by
  simp [loadTry, hw, hp, hn, hc, newContract, hre, hes, Sys.setProvider]

/-- The `try` block of `load` always ends, normally or with an exception. -/
theorem loadTry_isSome (w : World) (s : Sys) : ∃ r, loadTry w s = some r := by
  cases hw : w.ethereum with
  | none => exact ⟨_, loadTry_noWallet w s hw⟩
  | some eth =>
    cases hp : eth.web3Provider with
    | error e => exact ⟨_, loadTry_provider_throws w s eth e hw hp⟩
    | ok provider_ =>
      cases hn : eth.getNetwork with
      | error e => exact ⟨_, loadTry_network_throws w s eth provider_ e hw hp hn⟩
      | ok chainId =>
        cases hc : w.config chainId with
        | none => exact ⟨_, loadTry_unsupported w s eth provider_ chainId hw hp hn hc⟩
        | some cfg =>
          cases hre : w.contractFails cfg.realEstate .RealEstate with
          | some e =>
            exact ⟨_, loadTry_registry_throws w s eth provider_ chainId cfg e hw hp hn hc hre⟩
          | none =>
            cases hes : w.contractFails cfg.escrow .Escrow with
            | some e =>
              exact ⟨_, loadTry_escrow_throws w s eth provider_ chainId cfg e hw hp hn hc hre hes⟩
            | none =>
              rw [loadTry_supported w s eth provider_ chainId cfg hw hp hn hc hre hes]
              cases w.totalSupply ⟨cfg.realEstate, .RealEstate, provider_⟩ with
              | error e => exact ⟨_, rfl⟩
              | ok n => cases eth.hasOn <;> exact ⟨_, rfl⟩

/-- The async function `load` always completes, and never with an exception. -/
theorem load_completes (w : World) (s : Sys) : ∃ s' r, load w s = some (.done s' r) := by
  obtain ⟨r, hr⟩ := loadTry_isSome w s
  cases r with
  | done s' a => exact ⟨s', a, by simp [load, hr]⟩
  | threw s' e => exact ⟨(s'.log (.errorLoad e)).alert .initFailed, none, by simp [load, hr]⟩

/-- What `load` returns once the wallet, the provider, the network id and both contract bindings
are in place and the supply read answers `n`. -/
theorem load_after_setup (w : World) (s : Sys) (eth : Wallet) (provider_ : Provider)
    (chainId : Nat) (cfg : NetConfig) (n : Nat)
    (hw : w.ethereum = some eth) (hp : eth.web3Provider = .ok provider_)
    (hn : eth.getNetwork = .ok chainId) (hc : w.config chainId = some cfg)
    (hre : w.contractFails cfg.realEstate .RealEstate = none)
    (hes : w.contractFails cfg.escrow .Escrow = none)
    (ht : w.totalSupply ⟨cfg.realEstate, .RealEstate, provider_⟩ = .ok n) :
    load w s =
      if eth.hasOn then
        some (.done
          (((s.afterSetup provider_ cfg).afterHomes w
              ⟨cfg.realEstate, .RealEstate, provider_⟩ n).afterListeners)
          (some ⟨.handleAccountsChanged, .handleChainChanged⟩))
      else
        some (.done
          ((((s.afterSetup provider_ cfg).afterHomes w
              ⟨cfg.realEstate, .RealEstate, provider_⟩ n).log
                (.errorLoad ⟨"TypeError: window.ethereum.on is not a function"⟩)).alert
                  .initFailed)
          none) := by
  unfold load
  rw [loadTry_supported w s eth provider_ chainId cfg hw hp hn hc hre hes, ht]
  cases eth.hasOn <;> simp

/-! ## Counting lemmas -/

theorem filterMap_length_add_failed {α β : Type} (f : α → Option β) (l : List α) :
    (l.filterMap f).length + (l.filter fun a => (f a).isNone).length = l.length := by
  induction l with
  | nil => simp
  | cons a l ih =>
    cases h : f a with
    | none => simp [List.filterMap_cons, List.filter_cons, h]; omega
    | some b => simp [List.filterMap_cons, List.filter_cons, h]; omega

theorem fetchOf_ids (w : World) (re : Contract) (l : List Nat)
    (h : ∀ i ∈ l, ∃ uri, w.tokenURI re i = .ok uri) :
    (l.filterMap (fetchOf w re)).map Prod.fst = l := by
  induction l with
  | nil => simp
  | cons a l ih =>
    obtain ⟨uri, hu⟩ := h a (by simp)
    have ih' := ih (fun i hi => h i (by simp [hi]))
    simp [List.filterMap_cons, fetchOf, hu]
    simpa [fetchOf] using ih'

theorem tokenIds_length (n : Nat) : (tokenIds n).length = n := by
  simp [tokenIds]

theorem tokenIds_split (n k : Nat) (h1 : 1 ≤ k) (hk : k ≤ n) :
    tokenIds n = List.range' 1 (k - 1) ++ k :: List.range' (k + 1) (n - k) := by
  have h := List.range'_append_1 1 (k - 1) (n - k + 1)
  have e1 : n - k + 1 + (k - 1) = n := by omega
  have e2 : 1 + (k - 1) = k := by omega
  rw [e1, e2, List.range'_succ] at h
  exact h.symm

theorem loadedDoc_eq_some_iff (w : World) (re : Contract) (i : Nat) (d : Json) :
    loadedDoc w re i = some d ↔
      ∃ uri res, w.tokenURI re i = .ok uri ∧ w.fetch i (toHttpFromIpfs uri) = .ok res ∧
        res.ok = true ∧ res.json = .ok d := by
  unfold loadedDoc
  cases hu : w.tokenURI re i with
  | error e => simp
  | ok uri =>
    cases hf : w.fetch i (toHttpFromIpfs uri) with
    | error e => simp [hf]
    | ok res =>
      cases hok : res.ok with
      | false => simp [hf, hok]
      | true =>
        cases hj : res.json with
        | error e => simp [hf, hok, hj]
        | ok d' => simp [hf, hok, hj]

/-! ## The metadata loop: what reaches `setHomes` -/

/-- C1. For every supply `n` and every behaviour of lookup, fetch and parse, the loop ends normally
(no exception leaves it) with exactly the documents of the ids `1..n` whose three steps succeeded,
in ascending id order; a failing id `k` only drops its own entry, the documents of the ids before
and after it stay; and this list is what `load` stores with `setHomes`. -/
theorem metadataLoop_homes (w : World) (re : Contract) (n : Nat) (s : Sys) :
    (∃ s', metadataLoop w re n (n + 1) 1 [] s
        = some (.done s' ((tokenIds n).filterMap (loadedDoc w re)))) ∧
    (∀ i d, loadedDoc w re i = some d ↔
      ∃ uri res, w.tokenURI re i = .ok uri ∧ w.fetch i (toHttpFromIpfs uri) = .ok res ∧
        res.ok = true ∧ res.json = .ok d) ∧
    (∀ k, 1 ≤ k → k ≤ n → loadedDoc w re k = none →
      (tokenIds n).filterMap (loadedDoc w re)
        = (List.range' 1 (k - 1)).filterMap (loadedDoc w re)
          ++ (List.range' (k + 1) (n - k)).filterMap (loadedDoc w re)) ∧
    (∀ (eth : Wallet) (provider_ : Provider) (chainId : Nat) (cfg : NetConfig),
      w.ethereum = some eth → eth.web3Provider = .ok provider_ →
      eth.getNetwork = .ok chainId → w.config chainId = some cfg →
      w.contractFails cfg.realEstate .RealEstate = none →
      w.contractFails cfg.escrow .Escrow = none →
      re = ⟨cfg.realEstate, .RealEstate, provider_⟩ → w.totalSupply re = .ok n →
      ∃ s' r, load w s = some (.done s' r) ∧
        s'.app.homes = (tokenIds n).filterMap (loadedDoc w re)) := by
  refine ⟨⟨_, metadataLoop_run w re n s⟩, loadedDoc_eq_some_iff w re, ?_, ?_⟩
  · intro k h1 hk hnone
    rw [tokenIds_split n k h1 hk, List.filterMap_append, List.filterMap_cons, hnone]
  · intro eth provider_ chainId cfg hw hp hn hc hre hes hreg ht
    subst hreg
    rw [load_after_setup w s eth provider_ chainId cfg n hw hp hn hc hre hes ht]
    cases eth.hasOn
    · exact ⟨_, _, rfl, rfl⟩
    · exact ⟨_, _, rfl, rfl⟩

/-- C1 in the demo world: token 2 answers HTTP 404, tokens 1 and 3 are listed. -/
theorem metadataLoop_homes_witness :
    loadedDoc demoWorld demoRegistry 2 = none ∧
    (tokenIds 3).filterMap (loadedDoc demoWorld demoRegistry) = [⟨"home-1"⟩, ⟨"home-3"⟩] ∧
    ∃ s' r, load demoWorld Sys.initial = some (.done s' r) ∧
      s'.app.homes = (tokenIds 3).filterMap (loadedDoc demoWorld demoRegistry) :=
  ⟨rfl, by decide,
    (metadataLoop_homes demoWorld demoRegistry 3 Sys.initial).2.2.2 demoWallet ⟨1⟩ 31337
      ⟨"0xRealEstate", "0xEscrow"⟩ rfl rfl rfl rfl rfl rfl rfl rfl⟩

/-- C2 as stated fails: with supply 1 and a `tokenURI` call that reverts, the loop looks the id up
once and issues no fetch at all. -/
theorem revert_skips_fetch :
    revertWorld.totalSupply demoRegistry = .ok 1 ∧
    (metadataLoop revertWorld demoRegistry 1 2 1 [] Sys.initial).map
        (fun r => (r.state.lookups, r.state.fetches)) = some ([1], []) ∧
    (load revertWorld Sys.initial).map (fun r => r.state.fetches.length) = some 0 :=
  ⟨rfl, by decide, by decide⟩

/-- C2, amended. For supply `n` the loop performs exactly `n` `tokenURI` lookups, one for each id
`1..n` in order, and one fetch for each id whose lookup did not throw (at most `n`, and one for
each id `1..n` when no lookup throws); the list it produces has at most `n` entries, namely `n`
minus the number of ids that failed. -/
theorem metadataLoop_attempts (w : World) (re : Contract) (n : Nat) (s : Sys) :
    ∃ s' homes_, metadataLoop w re n (n + 1) 1 [] s = some (.done s' homes_) ∧
      s'.lookups = s.lookups ++ tokenIds n ∧ (tokenIds n).length = n ∧
      s'.fetches = s.fetches ++ (tokenIds n).filterMap (fetchOf w re) ∧
      (∀ i uri, w.tokenURI re i = .ok uri → fetchOf w re i = some (i, toHttpFromIpfs uri)) ∧
      (∀ i e, w.tokenURI re i = .error e → fetchOf w re i = none) ∧
      ((tokenIds n).filterMap (fetchOf w re)).length ≤ n ∧
      ((∀ i ∈ tokenIds n, ∃ uri, w.tokenURI re i = .ok uri) →
        ((tokenIds n).filterMap (fetchOf w re)).map Prod.fst = tokenIds n) ∧
      homes_.length ≤ n ∧ homes_.length = n - failedCount w re n ∧
      homes_.length + failedCount w re n = n := by
  have hsum := filterMap_length_add_failed (loadedDoc w re) (tokenIds n)
  rw [tokenIds_length] at hsum
  have hle := List.length_filterMap_le (fetchOf w re) (tokenIds n)
  rw [tokenIds_length] at hle
  refine ⟨_, _, metadataLoop_run w re n s, rfl, tokenIds_length n, rfl, ?_, ?_, hle,
    fetchOf_ids w re (tokenIds n), ?_, ?_, ?_⟩
  · intro i uri hu
    simp [fetchOf, hu]
  · intro i e hu
    simp [fetchOf, hu]
  · omega
  · unfold failedCount
    omega
  · exact hsum

/-- The amended C2 in the demo world: three lookups, three fetches, two documents, one failure. -/
theorem metadataLoop_attempts_witness :
    (∀ i ∈ tokenIds 3, ∃ uri, demoWorld.tokenURI demoRegistry i = .ok uri) ∧
    ((tokenIds 3).filterMap (fetchOf demoWorld demoRegistry)).map Prod.fst = tokenIds 3 ∧
    failedCount demoWorld demoRegistry 3 = 1 := by
  have hall : ∀ i ∈ tokenIds 3, ∃ uri, demoWorld.tokenURI demoRegistry i = .ok uri :=
    fun i _ => ⟨_, rfl⟩
  obtain ⟨_, _, _, _, _, _, _, _, _, h, _⟩ :=
    metadataLoop_attempts demoWorld demoRegistry 3 Sys.initial
  exact ⟨hall, h hall, by decide⟩

/-! ## `load`: the network guard and the bindings -/

/-- C4 as stated fails: on chain 1, which the table does not list, `load` alerts and stops, but
the provider cell already holds the provider built on line 44. -/
theorem unsupported_network_keeps_provider :
    mainnetWorld.config 1 = none ∧
    (load mainnetWorld Sys.initial).map (fun r => (r.state.alerts, r.state.app.provider))
      = some ([.unsupportedNetwork 1], some ⟨1⟩) :=
  ⟨rfl, by decide⟩

/-- C4, amended. For a network id that is not a key of the configuration table, `load` shows the
unsupported-network alert and returns at once: the escrow cell and the homes cell keep their
values (`null` and `[]` at mount), no contract is built, no lookup or fetch is issued and no
listener is attached; the provider cell however already holds the provider built before the
guard. -/
theorem load_unsupported_network (w : World) (s : Sys) (eth : Wallet) (provider_ : Provider)
    (chainId : Nat) (hw : w.ethereum = some eth) (hp : eth.web3Provider = .ok provider_)
    (hn : eth.getNetwork = .ok chainId) (hc : w.config chainId = none) :
    ∃ s', load w s = some (.done s' none) ∧
      s'.alerts = s.alerts ++ [.unsupportedNetwork chainId] ∧
      s'.app.provider = some provider_ ∧
      s'.app.escrow = s.app.escrow ∧ s'.app.homes = s.app.homes ∧
      s'.built = s.built ∧ s'.lookups = s.lookups ∧ s'.fetches = s.fetches ∧
      s'.listeners = s.listeners ∧ s'.console = s.console := by
  refine ⟨(s.setProvider provider_).alert (.unsupportedNetwork chainId), ?_, rfl, rfl, rfl, rfl,
    rfl, rfl, rfl, rfl, rfl⟩
  simp [load, loadTry_unsupported w s eth provider_ chainId hw hp hn hc]

/-- The amended C4 on chain 1 from the state at mount. -/
theorem load_unsupported_network_witness :
    ∃ s', load mainnetWorld Sys.initial = some (.done s' none) ∧
      s'.alerts = [.unsupportedNetwork 1] ∧ s'.app.provider = some ⟨1⟩ ∧
      s'.app.escrow = none ∧ s'.app.homes = [] ∧ s'.built = [] ∧ s'.fetches = [] := by
  obtain ⟨s', h, ha, hp, he, hh, hb, _, hf, _, _⟩ :=
    load_unsupported_network mainnetWorld Sys.initial mainnetWallet ⟨1⟩ 1 rfl rfl rfl rfl
  exact ⟨s', h, ha, hp, he, hh, hb, hf⟩

/-- C5. For a network id that is a key of the configuration table, with the wallet present and
both contract constructions succeeding, `load` completes with the provider cell and the escrow
cell set to the objects it built, whatever the supply read, the loop and the listener
registration do afterwards. -/
theorem load_supported_network (w : World) (s : Sys) (eth : Wallet) (provider_ : Provider)
    (chainId : Nat) (cfg : NetConfig)
    (hw : w.ethereum = some eth) (hp : eth.web3Provider = .ok provider_)
    (hn : eth.getNetwork = .ok chainId) (hc : w.config chainId = some cfg)
    (hre : w.contractFails cfg.realEstate .RealEstate = none)
    (hes : w.contractFails cfg.escrow .Escrow = none) :
    ∃ s' r, load w s = some (.done s' r) ∧
      s'.app.provider = some provider_ ∧
      s'.app.escrow = some ⟨cfg.escrow, .Escrow, provider_⟩ ∧
      s'.app.provider ≠ none ∧ s'.app.escrow ≠ none := by
  unfold load
  rw [loadTry_supported w s eth provider_ chainId cfg hw hp hn hc hre hes]
  cases w.totalSupply ⟨cfg.realEstate, .RealEstate, provider_⟩ with
  | error e => exact ⟨_, _, rfl, rfl, rfl, by simp [Sys.log, Sys.alert, Sys.afterSetup]⟩
  | ok n =>
    cases eth.hasOn
    · exact ⟨_, _, rfl, rfl, rfl,
        by simp [Sys.log, Sys.alert, Sys.afterSetup, Sys.afterHomes, Sys.afterIds, Sys.setHomes]⟩
    · exact ⟨_, _, rfl, rfl, rfl,
        by simp [Sys.afterListeners, Sys.afterSetup, Sys.afterHomes, Sys.afterIds,
          Sys.setHomes]⟩

/-- C5 in the demo world (chain 31337). -/
theorem load_supported_network_witness :
    demoWorld.config 31337 = some ⟨"0xRealEstate", "0xEscrow"⟩ ∧
    ∃ s' r, load demoWorld Sys.initial = some (.done s' r) ∧
      s'.app.provider = some ⟨1⟩ ∧
      s'.app.escrow = some ⟨"0xEscrow", .Escrow, ⟨1⟩⟩ ∧
      s'.app.provider ≠ none ∧ s'.app.escrow ≠ none :=
  ⟨rfl, load_supported_network demoWorld Sys.initial demoWallet ⟨1⟩ 31337
    ⟨"0xRealEstate", "0xEscrow"⟩ rfl rfl rfl rfl rfl rfl⟩

/-! ## `load`: where exceptions end up -/

/-- An exception inside the `try` of an iteration is caught by that iteration: a console warning,
no alert, the array untouched, and the loop goes on with `i + 1`. -/
theorem iteration_catches (w : World) (re : Contract) (i : Nat) (homes_ : List Json)
    (s0 s1 : Sys) (e : JsError) (h : iterationTry w re i homes_ s0 = .threw s1 e) :
    iteration w re i homes_ s0 = .done (s1.log (.warnTokenError i e)) homes_ ∧
    (s1.log (.warnTokenError i e)).alerts = s0.alerts ∧
    (s1.log (.warnTokenError i e)).console = s0.console ++ [.warnTokenError i e] ∧
    ∀ n fuel, i ≤ n →
      metadataLoop w re n (fuel + 1) i homes_ s0
        = metadataLoop w re n fuel (i + 1) homes_ (s1.log (.warnTokenError i e)) := by
  have hit : iteration w re i homes_ s0 = .done (s1.log (.warnTokenError i e)) homes_ := by
    simp [iteration, h]
  have hs1 : s1.alerts = s0.alerts ∧ s1.console = s0.console := by
    unfold iterationTry at h
    cases hu : w.tokenURI re i with
    | error e' =>
      simp only [hu] at h
      cases h
      exact ⟨rfl, rfl⟩
    | ok uri =>
      cases hf : w.fetch i (toHttpFromIpfs uri) with
      | error e' =>
        simp only [hu, hf] at h
        cases h
        exact ⟨rfl, rfl⟩
      | ok res =>
        cases hok : res.ok with
        | false => simp [hu, hf, hok] at h
        | true =>
          cases hj : res.json with
          | error e' =>
            simp [hu, hf, hok, hj] at h
            obtain ⟨h1, -⟩ := h
            subst h1
            exact ⟨rfl, rfl⟩
          | ok d => simp [hu, hf, hok, hj] at h
  refine ⟨hit, ?_, ?_, ?_⟩
  · simpa [Sys.log] using hs1.1
  · simp [Sys.log, hs1.2]
  · intro n fuel hi
    rw [metadataLoop, if_pos hi, hit]

/-- An exception leaving the `try` block of `load` ends in the outer `catch`. -/
theorem load_of_threw (w : World) (s s1 : Sys) (e : JsError)
    (h : loadTry w s = some (.threw s1 e)) :
    load w s = some (.done ((s1.log (.errorLoad e)).alert .initFailed) none) := by
  simp [load, h]

/-- C8. `load` always completes without throwing.  An exception raised by the network query, by
either contract construction or by the supply read is caught by the outer `catch`: it is written
to the console, the failure alert is shown and `load` returns nothing.  An exception raised in
one loop iteration (by the lookup, the fetch or the parse) is caught in that iteration: a console
warning, no alert, and the loop goes on with the next id; the loop as a whole adds no alert and
reaches every id `1..n`. -/
theorem load_error_policy (w : World) (s : Sys) :
    (∃ s' r, load w s = some (.done s' r)) ∧
    (∀ (eth : Wallet) (provider_ : Provider) (e : JsError),
      w.ethereum = some eth → eth.web3Provider = .ok provider_ → eth.getNetwork = .error e →
      ∃ s', load w s = some (.done s' none) ∧
        s'.alerts = s.alerts ++ [.initFailed] ∧ s'.console = s.console ++ [.errorLoad e]) ∧
    (∀ (eth : Wallet) (provider_ : Provider) (chainId : Nat) (cfg : NetConfig) (e : JsError),
      w.ethereum = some eth → eth.web3Provider = .ok provider_ →
      eth.getNetwork = .ok chainId → w.config chainId = some cfg →
      w.contractFails cfg.realEstate .RealEstate = some e →
      ∃ s', load w s = some (.done s' none) ∧
        s'.alerts = s.alerts ++ [.initFailed] ∧ s'.console = s.console ++ [.errorLoad e]) ∧
    (∀ (eth : Wallet) (provider_ : Provider) (chainId : Nat) (cfg : NetConfig) (e : JsError),
      w.ethereum = some eth → eth.web3Provider = .ok provider_ →
      eth.getNetwork = .ok chainId → w.config chainId = some cfg →
      w.contractFails cfg.realEstate .RealEstate = none →
      w.contractFails cfg.escrow .Escrow = some e →
      ∃ s', load w s = some (.done s' none) ∧
        s'.alerts = s.alerts ++ [.initFailed] ∧ s'.console = s.console ++ [.errorLoad e]) ∧
    (∀ (eth : Wallet) (provider_ : Provider) (chainId : Nat) (cfg : NetConfig) (e : JsError),
      w.ethereum = some eth → eth.web3Provider = .ok provider_ →
      eth.getNetwork = .ok chainId → w.config chainId = some cfg →
      w.contractFails cfg.realEstate .RealEstate = none →
      w.contractFails cfg.escrow .Escrow = none →
      w.totalSupply ⟨cfg.realEstate, .RealEstate, provider_⟩ = .error e →
      ∃ s', load w s = some (.done s' none) ∧
        s'.alerts = s.alerts ++ [.initFailed] ∧ s'.console = s.console ++ [.errorLoad e]) ∧
    (∀ (re : Contract) (i : Nat) (homes_ : List Json) (s0 : Sys) (e : JsError),
      (w.tokenURI re i = .error e ∨
        (∃ uri, w.tokenURI re i = .ok uri ∧ w.fetch i (toHttpFromIpfs uri) = .error e) ∨
        (∃ uri res, w.tokenURI re i = .ok uri ∧ w.fetch i (toHttpFromIpfs uri) = .ok res ∧
          res.ok = true ∧ res.json = .error e)) →
      ∃ s1 s2, iterationTry w re i homes_ s0 = .threw s1 e ∧
        iteration w re i homes_ s0 = .done s2 homes_ ∧
        s2.alerts = s0.alerts ∧ s2.console = s0.console ++ [.warnTokenError i e] ∧
        ∀ n fuel, i ≤ n →
          metadataLoop w re n (fuel + 1) i homes_ s0
            = metadataLoop w re n fuel (i + 1) homes_ s2) ∧
    (∀ (re : Contract) (n : Nat) (s0 : Sys),
      ∃ s' homes_, metadataLoop w re n (n + 1) 1 [] s0 = some (.done s' homes_) ∧
        s'.alerts = s0.alerts ∧ s'.lookups = s0.lookups ++ tokenIds n) := by
  refine ⟨load_completes w s, ?_, ?_, ?_, ?_, ?_, ?_⟩
  · intro eth provider_ e hw hp hn
    exact ⟨_, load_of_threw w s _ e (loadTry_network_throws w s eth provider_ e hw hp hn),
      rfl, rfl⟩
  · intro eth provider_ chainId cfg e hw hp hn hc hre
    exact ⟨_, load_of_threw w s _ e
      (loadTry_registry_throws w s eth provider_ chainId cfg e hw hp hn hc hre), rfl, rfl⟩
  · intro eth provider_ chainId cfg e hw hp hn hc hre hes
    exact ⟨_, load_of_threw w s _ e
      (loadTry_escrow_throws w s eth provider_ chainId cfg e hw hp hn hc hre hes), rfl, rfl⟩
  · intro eth provider_ chainId cfg e hw hp hn hc hre hes ht
    have h := loadTry_supported w s eth provider_ chainId cfg hw hp hn hc hre hes
    rw [ht] at h
    exact ⟨_, load_of_threw w s _ e h, rfl, rfl⟩
  · intro re i homes_ s0 e h
    have hthrow : ∃ s1, iterationTry w re i homes_ s0 = .threw s1 e := by
      rcases h with hu | ⟨uri, hu, hf⟩ | ⟨uri, res, hu, hf, hok, hj⟩
      · exact ⟨{ s0 with lookups := s0.lookups ++ [i] }, by simp [iterationTry, hu]⟩
      · exact ⟨{ s0 with
            lookups := s0.lookups ++ [i]
            fetches := s0.fetches ++ [(i, toHttpFromIpfs uri)] },
          by simp [iterationTry, hu, hf]⟩
      · exact ⟨{ s0 with
            lookups := s0.lookups ++ [i]
            fetches := s0.fetches ++ [(i, toHttpFromIpfs uri)] },
          by simp [iterationTry, hu, hf, hok, hj]⟩
    obtain ⟨s1, h1⟩ := hthrow
    obtain ⟨h2, h3, h4, h5⟩ := iteration_catches w re i homes_ s0 s1 e h1
    exact ⟨s1, _, h1, h2, h3, h4, h5⟩
  · intro re n s0
    exact ⟨_, _, metadataLoop_run w re n s0, rfl, rfl⟩

/-- C8 exercised: a rejected network query ends in the failure alert, and a reverting `tokenURI`
call ends in a console warning only. -/
theorem load_error_policy_witness :
    (∃ s', load offlineWorld Sys.initial = some (.done s' none) ∧
      s'.alerts = [.initFailed] ∧ s'.console = [.errorLoad ⟨"network unreachable"⟩]) ∧
    (∃ s1 s2, iterationTry revertWorld demoRegistry 1 [] Sys.initial
        = .threw s1 ⟨"call revert exception"⟩ ∧
      iteration revertWorld demoRegistry 1 [] Sys.initial = .done s2 [] ∧
      s2.alerts = [] ∧ s2.console = [.warnTokenError 1 ⟨"call revert exception"⟩]) := by
  have h := load_error_policy offlineWorld Sys.initial
  have h' := load_error_policy revertWorld Sys.initial
  obtain ⟨s', h1, h2, h3⟩ := h.2.1 _ ⟨1⟩ ⟨"network unreachable"⟩ rfl rfl rfl
  obtain ⟨s1, s2, k1, k2, k3, k4, _⟩ :=
    h'.2.2.2.2.2.1 demoRegistry 1 [] Sys.initial ⟨"call revert exception"⟩ (Or.inl rfl)
  exact ⟨⟨s', h1, h2, h3⟩, ⟨s1, s2, k1, k2, k3, k4⟩⟩

/-! ## Teardown -/

/-- Whatever `load` resolves to, the effect callback hands no cleanup to React. -/
theorem mountEffect_returns_nothing (w : World) (s s' : Sys) (c : Option Cleanup)
    (h : mountEffect w s = some (s', c)) : c = none := by
  unfold mountEffect at h
  cases hl : load w s with
  | none => simp [hl] at h
  | some r =>
    simp [hl] at h
    exact h.2.symm

/-- C9 fails on the code. In the demo world `load` attaches both listeners and returns a closure
that would detach them, but the effect callback hands `undefined` to React, so after teardown both
listeners are still attached. -/
theorem teardown_leaves_listeners :
    (load demoWorld Sys.initial).map
        (fun r => match r with
          | .done s (some c) => some (s.listeners, (runCleanup demoWorld c s).listeners)
          | _ => none)
      = some (some ([(.accountsChanged, .handleAccountsChanged),
          (.chainChanged, .handleChainChanged)], [])) ∧
    (mountEffect demoWorld Sys.initial).map (fun r => r.2) = some none ∧
    (mountEffect demoWorld Sys.initial).map
        (fun r => (unmount demoWorld r.2 r.1).listeners)
      = some [(.accountsChanged, .handleAccountsChanged),
          (.chainChanged, .handleChainChanged)] :=
  ⟨by decide, by decide, by decide⟩

/-! ## `toHttpFromIpfs` -/

theorem ipfsScheme_data : "ipfs://".data = ['i', 'p', 'f', 's', ':', '/', '/'] := rfl

theorem ipfsScheme_length : "ipfs://".length = 7 := rfl

theorem jsStartsWith_iff (s pre : String) : jsStartsWith s pre = true ↔ pre.data <+: s.data := by
  simp [jsStartsWith]

/-- C3. `toHttpFromIpfs` replaces a leading `ipfs://` by `https://ipfs.io/ipfs/` and returns every
other string, the empty one included, unchanged. -/
theorem toHttpFromIpfs_spec :
    (∀ s : String, toHttpFromIpfs ("ipfs://" ++ s) = "https://ipfs.io/ipfs/" ++ s) ∧
    toHttpFromIpfs "ipfs://abc123" = "https://ipfs.io/ipfs/abc123" ∧
    (∀ uri : String, ¬ "ipfs://".data <+: uri.data → toHttpFromIpfs uri = uri) ∧
    toHttpFromIpfs "" = "" ∧
    toHttpFromIpfs "https://example.com/x.json" = "https://example.com/x.json" := by
  refine ⟨?_, by decide, ?_, by decide, by decide⟩
  · intro s
    have hne : ¬ ("ipfs://" ++ s = "") := by
      intro h
      have := congrArg String.length h
      simp [String.length_append, ipfsScheme_length] at this
    have hpre : jsStartsWith ("ipfs://" ++ s) "ipfs://" = true := by
      rw [jsStartsWith_iff]
      simp [String.data_append]
    have hslice : jsSlice ("ipfs://" ++ s) "ipfs://".length = s := by
      apply String.ext
      simp [jsSlice, String.data_append, ipfsScheme_length, ipfsScheme_data]
    simp [toHttpFromIpfs, hne, hpre, hslice]
  · intro uri h
    have hpre : jsStartsWith uri "ipfs://" = false := by
      cases hb : jsStartsWith uri "ipfs://" with
      | false => rfl
      | true => exact absurd ((jsStartsWith_iff _ _).1 hb) h
    simp [toHttpFromIpfs, hpre]

/-- The pass-through half of C3 at the URL `https://example.com/x.json`. -/
theorem toHttpFromIpfs_spec_witness :
    ¬ "ipfs://".data <+: "https://example.com/x.json".data ∧
    toHttpFromIpfs "https://example.com/x.json" = "https://example.com/x.json" :=
  ⟨by decide, toHttpFromIpfs_spec.2.2.1 "https://example.com/x.json" (by decide)⟩

/-! ## The modal toggle -/

/-- C7. From the closed state `togglePop h` opens the modal on `h`; calling `togglePop` again from
there closes it; and the `Home` modal is rendered exactly when `toggle` is true. -/
theorem togglePop_open_then_close (h h2 : Json) (a : AppState) (hclosed : a.toggle = false) :
    (togglePop h a).toggle = true ∧ (togglePop h a).home = h ∧
    (togglePop h2 (togglePop h a)).toggle = false ∧
    (∀ b : AppState, (renderModal b).isSome = true ↔ b.toggle = true) ∧
    (renderModal (togglePop h a)).map (fun p => p.home) = some h ∧
    renderModal (togglePop h2 (togglePop h a)) = none := by
  refine ⟨?_, ?_, ?_, ?_, ?_, ?_⟩
  · simp [togglePop, hclosed]
  · simp [togglePop, hclosed]
  · simp [togglePop, hclosed]
  · intro b
    cases hb : b.toggle <;> simp [renderModal, hb]
  · simp [togglePop, renderModal, hclosed]
  · simp [togglePop, renderModal, hclosed]

/-- C7 at the initial component state. -/
theorem togglePop_open_then_close_witness :
    ({} : AppState).toggle = false ∧
    (togglePop ⟨"home-1"⟩ {}).toggle = true ∧ (togglePop ⟨"home-1"⟩ {}).home = ⟨"home-1"⟩ ∧
    (togglePop ⟨"home-1"⟩ (togglePop ⟨"home-1"⟩ {})).toggle = false :=
  have h := togglePop_open_then_close ⟨"home-1"⟩ ⟨"home-1"⟩ {} rfl
  ⟨rfl, h.1, h.2.1, h.2.2.1⟩

/-- C10. With the modal open on `x` (`toggle = true`, `home = x`), `togglePop y` closes the modal
instead of showing `y`, and the selected home becomes `y` all the same. -/
theorem togglePop_while_open_closes (x y : Json) (a : AppState) :
    (togglePop y { a with home := x, toggle := true }).toggle = false ∧
    (togglePop y { a with home := x, toggle := true }).home = y ∧
    renderModal (togglePop y { a with home := x, toggle := true }) = none := by
  simp [togglePop, renderModal]

/-! ## The account listener -/

/-- C6. An empty account list clears the active account, and every non-empty list sets it to the
checksummed form of its first entry, that is to what `ethers.utils.getAddress` answers for that
entry.  `getAddress` is the library function: it answers for addresses only, so never for the
empty string. -/
theorem handleAccountsChanged_checksums (w : World) (s : Sys)
    (hempty : ∀ c, w.getAddress "" ≠ .ok c) :
    handleAccountsChanged w (some []) s = .done (s.setAccount none) () ∧
    (s.setAccount none).app.account = none ∧
    ∀ (a0 : String) (rest : List String) (c : String), w.getAddress a0 = .ok c →
      handleAccountsChanged w (some (a0 :: rest)) s = .done (s.setAccount (some c)) () ∧
      (s.setAccount (some c)).app.account = some c := by
  refine ⟨rfl, rfl, ?_⟩
  intro a0 rest c hc
  have h0 : a0 ≠ "" := by
    intro h
    subst h
    exact hempty c hc
  simp [handleAccountsChanged, h0, hc, Sys.setAccount]

/-- C6 in the demo world: the wallet reports an account in lower case and the account cell
receives its checksummed form. -/
theorem handleAccountsChanged_checksums_witness :
    (∀ c, demoWorld.getAddress "" ≠ .ok c) ∧
    demoWorld.getAddress "0x5fbdb2315678afecb367f032d93f642f64180aa3"
      = .ok "0x5FbDB2315678afecb367f032d93F642f64180aa3" ∧
    handleAccountsChanged demoWorld (some []) Sys.initial
      = .done (Sys.initial.setAccount none) () ∧
    handleAccountsChanged demoWorld (some ["0x5fbdb2315678afecb367f032d93f642f64180aa3"])
      Sys.initial
      = .done (Sys.initial.setAccount (some "0x5FbDB2315678afecb367f032d93F642f64180aa3")) () :=
  have hempty : ∀ c, demoWorld.getAddress "" ≠ .ok c := by
    intro c h
    have hr : demoWorld.getAddress "" = .error ⟨"invalid address"⟩ := rfl
    rw [hr] at h
    cases h
  have h := handleAccountsChanged_checksums demoWorld Sys.initial hempty
  ⟨hempty, rfl, h.1,
    (h.2.2 "0x5fbdb2315678afecb367f032d93f642f64180aa3" [] _ rfl).1⟩

end Deedmint
